import Mathlib

/-!
# Eagle bank — shallow embedding of the eventual-consistency core

This file embeds, in Lean, the parts of the Tech-Twins/eagle repository that
the verified claims are about:

* the idempotent balance projector
  (`AccountCommandService.HandleTransactionEvent`, account-service command
  package),
* the account write repository (`AccountWriteRepository.GetByAccountNumber`,
  `AccountWriteRepository.UpdateBalance`),
* the account read repository (cache-aside
  `AccountReadRepository.GetByAccountNumber`, idempotency markers
  `IsTransactionProcessed` / `MarkTransactionProcessed`,
  `CacheAccountView`),
* the generic view cache (`ViewCache.Get` / `ViewCache.Set`,
  shared/redis/cache.go),
* the event-log consumer (`Subscriber.Start` group creation and
  `Subscriber.readMessages` ack logic, shared/events/subscriber.go).

Modelling conventions:

* Monetary amounts are `float64` in Go; they are modelled as `ℚ`.  The claims
  under verification are about which arithmetic operation is applied and when
  state is written, not about binary floating-point rounding.
* Timestamps are abstract instants modelled as `ℕ`; the database clock
  (`NOW()` in the `UPDATE ... SET balance` statement) is an explicit `now`
  parameter.
* The PostgreSQL `accounts` table, the Redis marker keyspace, the Redis view
  cache and the published-event log are association lists / lists inside one
  explicit state record, so states have decidable equality.
* Each fallible external call (SQL query, Redis command, publish) gets a
  Boolean fault flag in a `Faults` record; the Go code's behaviour on each
  failure (propagate / wrap / log-and-swallow) is reproduced from the source.
-/

namespace Eagle

/-! ## Shared event model (shared/events/events.go) -/

def TransactionCreated : String := "transaction.created"

def BalanceUpdated : String := "balance.updated"

/-- Payload of a `transaction.created` event (events.TransactionCreatedEvent). -/
structure TransactionCreatedEvent where
  transactionID : String
  accountNumber : String
  userID : String
  amount : ℚ
  type : String
  currency : String
  deriving Repr, DecidableEq

/-- Payload of a `balance.updated` event (events.BalanceUpdatedEvent). -/
structure BalanceUpdatedEvent where
  accountNumber : String
  newBalance : ℚ
  change : ℚ
  deriving Repr, DecidableEq

/-- The event envelope (events.Event).  `Data` is `any` in Go; the projector
only ever reads it after checking `Type == transaction.created` and
unmarshalling it into a `TransactionCreatedEvent`, so the payload is modelled
at that type directly. -/
structure Event where
  type : String
  timestamp : Nat
  data : TransactionCreatedEvent
  deriving Repr, DecidableEq

/-! ## Account models (shared/models, account-service repository) -/

/-- The PostgreSQL write model (models.Account): the fields read and written
by the account repository's SQL statements. -/
structure Account where
  accountNumber : String
  userID : String
  sortCode : String
  name : String
  accountType : String
  balance : ℚ
  currency : String
  createdAt : Nat
  updatedAt : Nat
  deriving Repr, DecidableEq

/-- A row of the `accounts` table: the write model plus the `deleted_at`
column used for soft deletion (every repository query filters on
`deleted_at IS NULL`). -/
structure AccountRow where
  account : Account
  deletedAt : Option Nat
  deriving Repr, DecidableEq

/-- The read-optimised projection (models.AccountView). -/
structure AccountView where
  accountNumber : String
  userID : String
  sortCode : String
  name : String
  accountType : String
  balance : ℚ
  currency : String
  createdAt : Nat
  updatedAt : Nat
  deriving Repr, DecidableEq

/-- The internal Redis representation of an account
(repository.accountCacheEntry): same fields as the view, serialised with
`userId` included. -/
structure AccountCacheEntry where
  accountNumber : String
  userID : String
  sortCode : String
  name : String
  accountType : String
  balance : ℚ
  currency : String
  createdAt : Nat
  updatedAt : Nat
  deriving Repr, DecidableEq

/-- accountToView (account-service command package): write model → view. -/
def accountToView (a : Account) : AccountView :=
  { accountNumber := a.accountNumber
    userID := a.userID
    sortCode := a.sortCode
    name := a.name
    accountType := a.accountType
    balance := a.balance
    currency := a.currency
    createdAt := a.createdAt
    updatedAt := a.updatedAt }

/-- cacheEntryToView (account_read_repository.go): cache entry → view. -/
def cacheEntryToView (e : AccountCacheEntry) : AccountView :=
  { accountNumber := e.accountNumber
    userID := e.userID
    sortCode := e.sortCode
    name := e.name
    accountType := e.accountType
    balance := e.balance
    currency := e.currency
    createdAt := e.createdAt
    updatedAt := e.updatedAt }

/-- The entry that CacheAccountView builds from a view before storing it. -/
def viewToCacheEntry (v : AccountView) : AccountCacheEntry :=
  { accountNumber := v.accountNumber
    userID := v.userID
    sortCode := v.sortCode
    name := v.name
    accountType := v.accountType
    balance := v.balance
    currency := v.currency
    createdAt := v.createdAt
    updatedAt := v.updatedAt }

/-! ## Keyed stores as association lists -/

/-- Overwrite-or-insert for an association list; mirrors a keyed store where
`SET`/`UPDATE` replaces the value under an existing key. -/
def setKey {α : Type} (m : List (String × α)) (k : String) (v : α) :
    List (String × α) :=
  match m with
  | [] => [(k, v)]
  | (k', v') :: rest => if k' = k then (k, v) :: rest else (k', v') :: setKey rest k v

theorem lookup_setKey_self {α : Type} (m : List (String × α)) (k : String) (v : α) :
    (setKey m k v).lookup k = some v := by
  induction m with
  | nil => simp [setKey, List.lookup]
  | cons hd tl ih =>
    obtain ⟨k', v'⟩ := hd
    by_cases h : k' = k
    · subst h; simp [setKey, List.lookup]
    · have hne : (k == k') = false := beq_eq_false_iff_ne.mpr (Ne.symm h)
      simp [setKey, h, List.lookup, hne, ih]

theorem lookup_setKey_ne {α : Type} (m : List (String × α)) (k k' : String) (v : α)
    (h : k' ≠ k) : (setKey m k v).lookup k' = m.lookup k' := by
  induction m with
  | nil =>
    have hne : (k' == k) = false := beq_eq_false_iff_ne.mpr h
    simp [setKey, List.lookup, hne]
  | cons hd tl ih =>
    obtain ⟨k₀, v₀⟩ := hd
    by_cases hk : k₀ = k
    · subst hk
      have hne : (k' == k₀) = false := beq_eq_false_iff_ne.mpr h
      simp [setKey, List.lookup, hne]
    · by_cases hk' : k₀ = k'
      · subst hk'
        simp [setKey, hk, List.lookup]
      · have hne : (k' == k₀) = false := beq_eq_false_iff_ne.mpr (Ne.symm hk')
        simp [setKey, hk, List.lookup, hne, ih]

/-! ## World state and fault model -/

/-- The state visible to the account service: the `accounts` table in the
durable store, the Redis idempotency-marker keyspace (`processed:txn:` keys,
as the set of marked transaction ids), the Redis view cache (each entry kept
with the TTL it was set with; `0` means no expiry, following go-redis), and
the log of `balance.updated` events appended to the account topic. -/
structure ProjectorState where
  accounts : List (String × AccountRow)
  processed : List String
  cache : List (String × (AccountCacheEntry × Nat))
  published : List BalanceUpdatedEvent
  deriving Repr, DecidableEq

/-- Fault flags for the external calls a single invocation makes.  Each flag
makes the corresponding Redis/SQL call return an error. -/
structure Faults where
  existsCheckFails : Bool
  getAccountFails : Bool
  updateBalanceFails : Bool
  markFails : Bool
  cacheGetFails : Bool
  cacheSetFails : Bool
  publishFails : Bool
  dbReadFails : Bool
  deriving Repr, DecidableEq

/-- The all-clear fault assignment. -/
def noFaults : Faults :=
  { existsCheckFails := false
    getAccountFails := false
    updateBalanceFails := false
    markFails := false
    cacheGetFails := false
    cacheSetFails := false
    publishFails := false
    dbReadFails := false }

/-! ## Write repository (account_repository.go) -/

/-- AccountWriteRepository.GetByAccountNumber: SELECT the full write model,
filtering soft-deleted rows; `sql.ErrNoRows` becomes "account not found",
any other query error is wrapped as "failed to get account". -/
def AccountWriteRepository.GetByAccountNumber (f : Faults) (s : ProjectorState)
    (accountNumber : String) : Except String Account :=
  if f.getAccountFails then .error "failed to get account" else
  match s.accounts.lookup accountNumber with
  | some row => if row.deletedAt = none then .ok row.account else .error "account not found"
  | none => .error "account not found"

/-- AccountWriteRepository.UpdateBalance: `UPDATE accounts SET balance = $2,
updated_at = NOW() WHERE account_number = $1 AND deleted_at IS NULL`; zero
rows affected is "account not found".  `now` is the database clock. -/
def AccountWriteRepository.UpdateBalance (f : Faults) (now : Nat) (s : ProjectorState)
    (accountNumber : String) (newBalance : ℚ) : Except String ProjectorState :=
  if f.updateBalanceFails then .error "failed to update balance" else
  match s.accounts.lookup accountNumber with
  | some row =>
    if row.deletedAt = none then
      let row' : AccountRow :=
        { row with account := { row.account with balance := newBalance, updatedAt := now } }
      .ok { s with accounts := setKey s.accounts accountNumber row' }
    else .error "account not found"
  | none => .error "account not found"

/-! ## View cache (shared/redis/cache.go) -/

/-- ViewCache.Get: any Redis error or deserialisation failure is a miss. -/
def ViewCache.Get (f : Faults) (s : ProjectorState) (key : String) :
    Option AccountCacheEntry :=
  if f.cacheGetFails then none
  else (s.cache.lookup key).map Prod.fst

/-- ViewCache.Set: store the value under the key with the cache's TTL; a
write error is logged and swallowed (state unchanged). -/
def ViewCache.Set (f : Faults) (ttl : Nat) (s : ProjectorState) (key : String)
    (value : AccountCacheEntry) : ProjectorState :=
  if f.cacheSetFails then s
  else { s with cache := setKey s.cache key (value, ttl) }

/-! ## Read repository (account_read_repository.go) -/

def accountViewKeyPrefix : String := "account:view:"

/-- AccountReadRepository.CacheAccountView: build the internal cache entry
from the view and `Set` it.  The repository's ViewCache is constructed with
TTL 0 (no expiry). -/
def AccountReadRepository.CacheAccountView (f : Faults) (s : ProjectorState)
    (view : AccountView) : ProjectorState :=
  ViewCache.Set f 0 s (accountViewKeyPrefix ++ view.accountNumber) (viewToCacheEntry view)

/-- AccountReadRepository.GetByAccountNumber: try the cache; on miss fall
back to PostgreSQL (soft-deleted rows excluded), warm the cache with the
freshly built view, and return it. -/
def AccountReadRepository.GetByAccountNumber (f : Faults) (s : ProjectorState)
    (accountNumber : String) : Except String AccountView × ProjectorState :=
  let cacheKey := accountViewKeyPrefix ++ accountNumber
  match ViewCache.Get f s cacheKey with
  | some entry => (.ok (cacheEntryToView entry), s)
  | none =>
    if f.dbReadFails then (.error "failed to get account", s)
    else match s.accounts.lookup accountNumber with
    | some row =>
      if row.deletedAt = none then
        let view := accountToView row.account
        (.ok view, AccountReadRepository.CacheAccountView f s view)
      else (.error "account not found", s)
    | none => (.error "account not found", s)

/-- AccountReadRepository.IsTransactionProcessed: Redis `EXISTS` on the
`processed:txn:` key; an errored check reads as "not processed"
(`err == nil && val > 0`). -/
def AccountReadRepository.IsTransactionProcessed (f : Faults) (s : ProjectorState)
    (transactionID : String) : Bool :=
  !f.existsCheckFails && s.processed.contains transactionID

/-- AccountReadRepository.MarkTransactionProcessed: Redis `SET` of the marker
key (72h TTL); a write error is logged and swallowed, never returned. -/
def AccountReadRepository.MarkTransactionProcessed (f : Faults) (s : ProjectorState)
    (transactionID : String) : ProjectorState :=
  if f.markFails then s
  else { s with processed := transactionID :: s.processed }

/-! ## Publisher (shared/events/publisher.go), specialised to the
`balance.updated` events the projector emits on the account topic. -/

def Publisher.PublishBalanceUpdated (f : Faults) (s : ProjectorState)
    (e : BalanceUpdatedEvent) : Except String Unit × ProjectorState :=
  if f.publishFails then (.error "failed to publish event", s)
  else (.ok (), { s with published := s.published ++ [e] })

/-! ## The idempotent balance projector
(AccountCommandService.HandleTransactionEvent) -/

/-- AccountCommandService.HandleTransactionEvent, translated statement by
statement from the Go source: skip foreign event types; skip already
processed transaction ids; load the account (errors propagate); compute
`+amount` for type "deposit" and `-amount` otherwise; persist the balance
(errors propagate); mark the transaction processed (marker-write errors are
swallowed); refresh the cached view (from the in-memory account, so its
`updatedAt` is the pre-update one); publish `balance.updated` with
`Change = data.Amount` (publish errors are swallowed). -/
def AccountCommandService.HandleTransactionEvent (f : Faults) (now : Nat)
    (s : ProjectorState) (event : Event) : Except String Unit × ProjectorState :=
  if event.type ≠ TransactionCreated then (.ok (), s)
  else
    let data := event.data
    if AccountReadRepository.IsTransactionProcessed f s data.transactionID then
      (.ok (), s)
    else
      match AccountWriteRepository.GetByAccountNumber f s data.accountNumber with
      | .error e => (.error ("failed to get account for balance update: " ++ e), s)
      | .ok account =>
        let newBalance : ℚ :=
          if data.type = "deposit" then account.balance + data.amount
          else account.balance - data.amount
        match AccountWriteRepository.UpdateBalance f now s data.accountNumber newBalance with
        | .error e => (.error ("failed to update balance: " ++ e), s)
        | .ok s1 =>
          let s2 := AccountReadRepository.MarkTransactionProcessed f s1 data.transactionID
          let s3 := AccountReadRepository.CacheAccountView f s2
            (accountToView { account with balance := newBalance })
          let s4 := (Publisher.PublishBalanceUpdated f s3
            { accountNumber := data.accountNumber
              newBalance := newBalance
              change := data.amount }).2
          (.ok (), s4)

/-! ## Consumer (shared/events/subscriber.go) -/

/-- One entry of a consumer-group batch (redis.XMessage): the entry id and
the parsed `"event"` field.  `none` covers both a missing/non-string
`"event"` value and a JSON payload that fails to unmarshal — the two error
branches of processMessage collapse to "error before the handler runs". -/
structure XMessage where
  id : String
  event : Option Event
  deriving Repr, DecidableEq

/-- Subscriber.processMessage: reject malformed entries, otherwise dispatch
the envelope to the registered handler. -/
def Subscriber.processMessage (handler : Event → Except String Unit)
    (m : XMessage) : Except String Unit :=
  match m.event with
  | none => .error "invalid message format"
  | some e => handler e

/-- The ids readMessages calls `XAck` on, in order: an entry is acknowledged
exactly when processMessage succeeded on it; on an error the loop logs,
skips the ack and continues with the next entry. -/
def Subscriber.readMessagesAcks (handler : Event → Except String Unit)
    (msgs : List XMessage) : List String :=
  match msgs with
  | [] => []
  | m :: rest =>
    match Subscriber.processMessage handler m with
    | .error _ => Subscriber.readMessagesAcks handler rest
    | .ok _ => m.id :: Subscriber.readMessagesAcks handler rest

/-- Whether an Except result is a success. -/
def Except.isOkB {ε α : Type} : Except ε α → Bool
  | .ok _ => true
  | .error _ => false

/-- The error message Redis returns when a consumer group already exists;
Subscriber.Start compares the group-creation error against this string. -/
def busygroupMsg : String := "BUSYGROUP Consumer Group name already exists"

/-- The consumer-group table of the event log: (stream, group) ↦ the group's
cursor.  Owned by Redis; consumers create groups and advance cursors. -/
structure StreamGroups where
  groups : List ((String × String) × String)
  deriving Repr, DecidableEq

/-- Redis `XGROUP CREATE ... MKSTREAM`: creating an existing group fails with
BUSYGROUP and leaves its cursor untouched; otherwise the group is created
with the requested start cursor.  `transportErr` injects a connection-level
failure.  Returns (error?, new state). -/
def Redis.XGroupCreateMkStream (transportErr : Option String) (g : StreamGroups)
    (stream group start : String) : Option String × StreamGroups :=
  match transportErr with
  | some e => (some e, g)
  | none =>
    match g.groups.lookup (stream, group) with
    | some _ => (some busygroupMsg, g)
    | none => (none, { groups := ((stream, group), start) :: g.groups })

/-- The group-creation phase of Subscriber.Start: call XGroupCreateMkStream
with start id "0"; an error other than BUSYGROUP is wrapped and returned
(fatal), BUSYGROUP is treated as success and the subscriber proceeds to the
read loop.  `.ok` carries the group table as the loop begins. -/
def Subscriber.Start (transportErr : Option String) (g : StreamGroups)
    (stream group : String) : Except String StreamGroups :=
  let r := Redis.XGroupCreateMkStream transportErr g stream group "0"
  match r.1 with
  | some e =>
    if e ≠ busygroupMsg then .error ("failed to create consumer group: " ++ e)
    else .ok r.2
  | none => .ok r.2

/-! ## Derived descriptions of the apply path, proved from the definitions -/

/-- The balance the projector computes from a stored balance and an event
payload: `+amount` when the payload type is "deposit", `-amount` otherwise. -/
def projectedBalance (data : TransactionCreatedEvent) (b : ℚ) : ℚ :=
  if data.type = "deposit" then b + data.amount else b - data.amount

/-- The account row after the projector's balance write: the balance is
replaced and `updated_at` is set to the database clock. -/
def projectedRow (data : TransactionCreatedEvent) (now : Nat) (row : AccountRow) : AccountRow :=
  { row with account := { row.account with
      balance := projectedBalance data row.account.balance, updatedAt := now } }

/-- Full characterisation of a successful apply-path invocation of the
projector: the result is success and each component of the state is updated
as the corresponding call dictates (marker, cache and publish degrade
independently under their fault flags). -/
theorem handle_apply_spec (f : Faults) (now : Nat) (s : ProjectorState)
    (e : Event) (row : AccountRow)
    (htype : e.type = TransactionCreated)
    (hfresh : e.data.transactionID ∉ s.processed)
    (hrow : s.accounts.lookup e.data.accountNumber = some row)
    (hlive : row.deletedAt = none)
    (hget : f.getAccountFails = false)
    (hupd : f.updateBalanceFails = false) :
    (AccountCommandService.HandleTransactionEvent f now s e).1 = .ok () ∧
    (AccountCommandService.HandleTransactionEvent f now s e).2.accounts =
      setKey s.accounts e.data.accountNumber (projectedRow e.data now row) ∧
    (AccountCommandService.HandleTransactionEvent f now s e).2.processed =
      (if f.markFails then s.processed else e.data.transactionID :: s.processed) ∧
    (AccountCommandService.HandleTransactionEvent f now s e).2.published =
      (if f.publishFails then s.published
       else s.published ++ [{ accountNumber := e.data.accountNumber,
                              newBalance := projectedBalance e.data row.account.balance,
                              change := e.data.amount }]) ∧
    (AccountCommandService.HandleTransactionEvent f now s e).2.cache =
      (if f.cacheSetFails then s.cache
       else setKey s.cache (accountViewKeyPrefix ++ row.account.accountNumber)
         (viewToCacheEntry (accountToView
           { row.account with balance := projectedBalance e.data row.account.balance }), 0)) := by
  obtain ⟨ec, ga, ub, mk, cg, cs, pb, db⟩ := f
  simp only at hget hupd
  subst hget hupd
  cases mk <;> cases cs <;> cases pb <;>
    simp [AccountCommandService.HandleTransactionEvent, htype, TransactionCreated,
      AccountReadRepository.IsTransactionProcessed, hfresh,
      AccountWriteRepository.GetByAccountNumber, hrow, hlive,
      AccountWriteRepository.UpdateBalance,
      AccountReadRepository.MarkTransactionProcessed,
      AccountReadRepository.CacheAccountView, ViewCache.Set,
      Publisher.PublishBalanceUpdated, projectedRow, projectedBalance,
      accountToView, viewToCacheEntry]

/-- Whenever HandleTransactionEvent returns an error, it has written nothing:
the whole state (durable store, markers, cache, published log) is unchanged. -/
theorem handle_error_frame (f : Faults) (now : Nat) (s : ProjectorState) (e : Event)
    (msg : String)
    (h : (AccountCommandService.HandleTransactionEvent f now s e).1 = .error msg) :
    (AccountCommandService.HandleTransactionEvent f now s e).2 = s := by
  obtain ⟨ec, ga, ub, mk, cg, cs, pb, db⟩ := f
  by_cases hty : e.type = TransactionCreated
  · by_cases hproc : ec = false ∧ e.data.transactionID ∈ s.processed
    · simp [AccountCommandService.HandleTransactionEvent, hty, TransactionCreated,
        AccountReadRepository.IsTransactionProcessed, hproc]
    · rcases hlk : s.accounts.lookup e.data.accountNumber with _ | row
      · cases ga <;>
          simp [AccountCommandService.HandleTransactionEvent, hty, TransactionCreated,
            AccountReadRepository.IsTransactionProcessed, hproc,
            AccountWriteRepository.GetByAccountNumber, hlk]
      · rcases hdel : row.deletedAt with _ | d <;>
          cases ga <;> cases ub <;> cases mk <;> cases cs <;> cases pb <;>
          first
          | (simp [AccountCommandService.HandleTransactionEvent, hty, TransactionCreated,
              AccountReadRepository.IsTransactionProcessed, hproc,
              AccountWriteRepository.GetByAccountNumber,
              AccountWriteRepository.UpdateBalance, hlk, hdel,
              AccountReadRepository.MarkTransactionProcessed,
              AccountReadRepository.CacheAccountView, ViewCache.Set,
              Publisher.PublishBalanceUpdated]; done)
          | (simp [AccountCommandService.HandleTransactionEvent, hty, TransactionCreated,
              AccountReadRepository.IsTransactionProcessed, hproc,
              AccountWriteRepository.GetByAccountNumber,
              AccountWriteRepository.UpdateBalance, hlk, hdel,
              AccountReadRepository.MarkTransactionProcessed,
              AccountReadRepository.CacheAccountView, ViewCache.Set,
              Publisher.PublishBalanceUpdated] at h)
  · simp [AccountCommandService.HandleTransactionEvent, hty] at h

/-- Inversion: if an invocation turned the idempotency marker for the event's
transaction id from absent to present, then the event was a
transaction.created, the account lookup and the balance write both succeeded
(so the marker write happened strictly after a successful balance write),
and the marker write itself did not fail. -/
theorem handle_mark_inversion (f : Faults) (now : Nat) (s : ProjectorState) (e : Event)
    (hfresh : e.data.transactionID ∉ s.processed)
    (hmarked : e.data.transactionID ∈
      (AccountCommandService.HandleTransactionEvent f now s e).2.processed) :
    e.type = TransactionCreated ∧ f.getAccountFails = false ∧
    f.updateBalanceFails = false ∧ f.markFails = false ∧
    ∃ row, s.accounts.lookup e.data.accountNumber = some row ∧ row.deletedAt = none := by
  obtain ⟨ec, ga, ub, mk, cg, cs, pb, db⟩ := f
  by_cases hty : e.type = TransactionCreated
  · by_cases hproc : ec = false ∧ e.data.transactionID ∈ s.processed
    · exact absurd hproc.2 hfresh
    · rcases hlk : s.accounts.lookup e.data.accountNumber with _ | row
      · exfalso
        cases ga <;>
          simp [AccountCommandService.HandleTransactionEvent, hty, TransactionCreated,
            AccountReadRepository.IsTransactionProcessed, hproc,
            AccountWriteRepository.GetByAccountNumber, hlk] at hmarked <;>
          exact hfresh hmarked
      · rcases hdel : row.deletedAt with _ | d
        · cases ga <;> cases ub <;> cases mk <;> cases cs <;> cases pb <;>
            first
            | exact ⟨hty, rfl, rfl, rfl, row, rfl, hdel⟩
            | (exfalso
               simp [AccountCommandService.HandleTransactionEvent, hty, TransactionCreated,
                 AccountReadRepository.IsTransactionProcessed, hproc,
                 AccountWriteRepository.GetByAccountNumber,
                 AccountWriteRepository.UpdateBalance, hlk, hdel,
                 AccountReadRepository.MarkTransactionProcessed,
                 AccountReadRepository.CacheAccountView, ViewCache.Set,
                 Publisher.PublishBalanceUpdated] at hmarked
               exact hfresh hmarked)
        · exfalso
          cases ga <;> cases ub <;> cases mk <;>
            simp [AccountCommandService.HandleTransactionEvent, hty, TransactionCreated,
              AccountReadRepository.IsTransactionProcessed, hproc,
              AccountWriteRepository.GetByAccountNumber,
              AccountWriteRepository.UpdateBalance, hlk, hdel] at hmarked <;>
            exact hfresh hmarked
  · exfalso
    simp [AccountCommandService.HandleTransactionEvent, hty] at hmarked
    exact hfresh hmarked

/-- The duplicate-delivery no-op: when the idempotency check reports the
transaction id as processed, the handler returns success immediately and the
state is untouched. -/
theorem handle_skip (f : Faults) (now : Nat) (s : ProjectorState) (e : Event)
    (htype : e.type = TransactionCreated)
    (hproc : AccountReadRepository.IsTransactionProcessed f s e.data.transactionID = true) :
    AccountCommandService.HandleTransactionEvent f now s e = (.ok (), s) := by
  rw [AccountCommandService.HandleTransactionEvent]
  simp [htype, hproc]

/-- Converting a view to its cache entry and back is the identity: the two
shapes carry exactly the same fields. -/
theorem cacheEntry_view_roundtrip (v : AccountView) :
    cacheEntryToView (viewToCacheEntry v) = v := rfl

/-! ## Concrete fixtures used by the witness theorems -/

def exAccount : Account :=
  { accountNumber := "01000001", userID := "usr-1", sortCode := "10-10-10",
    name := "Main", accountType := "personal", balance := 100, currency := "GBP",
    createdAt := 0, updatedAt := 0 }

def exRow : AccountRow := { account := exAccount, deletedAt := none }

def exState : ProjectorState :=
  { accounts := [("01000001", exRow)], processed := [], cache := [], published := [] }

def exDeposit : Event :=
  { type := TransactionCreated, timestamp := 5,
    data := { transactionID := "t1", accountNumber := "01000001", userID := "usr-1",
              amount := 50, type := "deposit", currency := "GBP" } }

def exWithdrawal : Event :=
  { type := TransactionCreated, timestamp := 5,
    data := { transactionID := "t2", accountNumber := "01000001", userID := "usr-1",
              amount := 500, type := "withdrawal", currency := "GBP" } }

def exUnknownType : Event :=
  { type := TransactionCreated, timestamp := 5,
    data := { transactionID := "t3", accountNumber := "01000001", userID := "usr-1",
              amount := 25, type := "", currency := "GBP" } }

/-! ## Claim theorems -/

/-- C2: for every unprocessed transaction.created event whose account exists
(and whose loading and balance write do not fail), the new persisted balance
equals the old balance plus the amount when the payload type is "deposit" and
the old balance minus the amount otherwise; no hypothesis compares the amount
with the balance, so a withdrawal exceeding the balance is applied all the
same. -/
theorem handleTransactionEvent_balance (f : Faults) (now : Nat) (s : ProjectorState)
    (e : Event) (row : AccountRow)
    (htype : e.type = TransactionCreated)
    (hfresh : e.data.transactionID ∉ s.processed)
    (hrow : s.accounts.lookup e.data.accountNumber = some row)
    (hlive : row.deletedAt = none)
    (hget : f.getAccountFails = false)
    (hupd : f.updateBalanceFails = false) :
    (AccountCommandService.HandleTransactionEvent f now s e).1 = .ok () ∧
    ∃ row', (AccountCommandService.HandleTransactionEvent f now s e).2.accounts.lookup
        e.data.accountNumber = some row' ∧
      row'.account.balance =
        (if e.data.type = "deposit" then row.account.balance + e.data.amount
         else row.account.balance - e.data.amount) := by
  obtain ⟨h1, h2, -, -, -⟩ :=
    handle_apply_spec f now s e row htype hfresh hrow hlive hget hupd
  refine ⟨h1, projectedRow e.data now row, ?_, ?_⟩
  · rw [h2, lookup_setKey_self]
  · simp [projectedRow, projectedBalance]

/-- Witness for C2: a withdrawal of 500 against a balance of 100 succeeds and
leaves the persisted balance at 100 - 500 (no sufficiency check). -/
theorem handleTransactionEvent_balance_witness :
    (AccountCommandService.HandleTransactionEvent noFaults 7 exState exWithdrawal).1 = .ok () ∧
    ∃ row', (AccountCommandService.HandleTransactionEvent noFaults 7 exState
        exWithdrawal).2.accounts.lookup exWithdrawal.data.accountNumber = some row' ∧
      row'.account.balance =
        (if exWithdrawal.data.type = "deposit" then
          exRow.account.balance + exWithdrawal.data.amount
         else exRow.account.balance - exWithdrawal.data.amount) :=
  handleTransactionEvent_balance noFaults 7 exState exWithdrawal exRow rfl
    (by simp [exState]) rfl rfl rfl rfl

/-- C8: the projector treats every payload type other than "deposit" -- the
empty string and unknown labels included -- as a subtraction of the amount;
there is no validation against the set of known types. -/
theorem handleTransactionEvent_nonDeposit_subtracts (f : Faults) (now : Nat)
    (s : ProjectorState) (e : Event) (row : AccountRow)
    (htype : e.type = TransactionCreated)
    (hfresh : e.data.transactionID ∉ s.processed)
    (hrow : s.accounts.lookup e.data.accountNumber = some row)
    (hlive : row.deletedAt = none)
    (hget : f.getAccountFails = false)
    (hupd : f.updateBalanceFails = false)
    (hty : e.data.type ≠ "deposit") :
    (AccountCommandService.HandleTransactionEvent f now s e).1 = .ok () ∧
    ∃ row', (AccountCommandService.HandleTransactionEvent f now s e).2.accounts.lookup
        e.data.accountNumber = some row' ∧
      row'.account.balance = row.account.balance - e.data.amount := by
  obtain ⟨h1, h2, -, -, -⟩ :=
    handle_apply_spec f now s e row htype hfresh hrow hlive hget hupd
  refine ⟨h1, projectedRow e.data now row, ?_, ?_⟩
  · rw [h2, lookup_setKey_self]
  · simp [projectedRow, projectedBalance, hty]

/-- Witness for C8: a payload whose type is the empty string is applied as a
subtraction (balance 100 becomes 100 - 25). -/
theorem handleTransactionEvent_nonDeposit_subtracts_witness :
    (AccountCommandService.HandleTransactionEvent noFaults 7 exState exUnknownType).1 = .ok () ∧
    ∃ row', (AccountCommandService.HandleTransactionEvent noFaults 7 exState
        exUnknownType).2.accounts.lookup exUnknownType.data.accountNumber = some row' ∧
      row'.account.balance = exRow.account.balance - exUnknownType.data.amount :=
  handleTransactionEvent_nonDeposit_subtracts noFaults 7 exState exUnknownType exRow rfl
    (by simp [exState]) rfl rfl rfl rfl (by decide)

/-- C9: a failing idempotency-marker write is swallowed -- the handler still
returns success after the balance was applied, and no marker for the
transaction id is left behind. -/
theorem markTransactionProcessed_error_swallowed (f : Faults) (now : Nat)
    (s : ProjectorState) (e : Event) (row : AccountRow)
    (htype : e.type = TransactionCreated)
    (hfresh : e.data.transactionID ∉ s.processed)
    (hrow : s.accounts.lookup e.data.accountNumber = some row)
    (hlive : row.deletedAt = none)
    (hget : f.getAccountFails = false)
    (hupd : f.updateBalanceFails = false)
    (hmark : f.markFails = true) :
    (AccountCommandService.HandleTransactionEvent f now s e).1 = .ok () ∧
    (AccountCommandService.HandleTransactionEvent f now s e).2.processed = s.processed ∧
    e.data.transactionID ∉
      (AccountCommandService.HandleTransactionEvent f now s e).2.processed ∧
    ∃ row', (AccountCommandService.HandleTransactionEvent f now s e).2.accounts.lookup
        e.data.accountNumber = some row' ∧
      row'.account.balance = projectedBalance e.data row.account.balance := by
  obtain ⟨h1, h2, h3, -, -⟩ :=
    handle_apply_spec f now s e row htype hfresh hrow hlive hget hupd
  rw [hmark] at h3
  simp only [if_true] at h3
  refine ⟨h1, h3, by rw [h3]; exact hfresh, projectedRow e.data now row, ?_, ?_⟩
  · rw [h2, lookup_setKey_self]
  · simp [projectedRow]

/-- Witness for C9: with the marker write failing, the deposit is applied,
the handler reports success, and the processed set stays empty. -/
theorem markTransactionProcessed_error_swallowed_witness :
    (AccountCommandService.HandleTransactionEvent { noFaults with markFails := true }
        7 exState exDeposit).1 = .ok () ∧
    (AccountCommandService.HandleTransactionEvent { noFaults with markFails := true }
        7 exState exDeposit).2.processed = exState.processed ∧
    exDeposit.data.transactionID ∉
      (AccountCommandService.HandleTransactionEvent { noFaults with markFails := true }
        7 exState exDeposit).2.processed ∧
    ∃ row', (AccountCommandService.HandleTransactionEvent { noFaults with markFails := true }
        7 exState exDeposit).2.accounts.lookup exDeposit.data.accountNumber = some row' ∧
      row'.account.balance = projectedBalance exDeposit.data exRow.account.balance :=
  markTransactionProcessed_error_swallowed { noFaults with markFails := true } 7 exState
    exDeposit exRow rfl (by simp [exState]) rfl rfl rfl rfl rfl

/-- C10: the balance.updated event the projector publishes carries
`Change = data.Amount` verbatim -- never negated -- while `NewBalance` is the
projected balance; so for a non-deposit with a positive amount the published
change is positive although the new balance is strictly below the old one. -/
theorem balanceUpdated_change_is_raw_amount (f : Faults) (now : Nat)
    (s : ProjectorState) (e : Event) (row : AccountRow)
    (htype : e.type = TransactionCreated)
    (hfresh : e.data.transactionID ∉ s.processed)
    (hrow : s.accounts.lookup e.data.accountNumber = some row)
    (hlive : row.deletedAt = none)
    (hget : f.getAccountFails = false)
    (hupd : f.updateBalanceFails = false)
    (hpub : f.publishFails = false) :
    (AccountCommandService.HandleTransactionEvent f now s e).2.published =
      s.published ++ [{ accountNumber := e.data.accountNumber,
                        newBalance := projectedBalance e.data row.account.balance,
                        change := e.data.amount }] ∧
    (e.data.type ≠ "deposit" → 0 < e.data.amount →
      0 < e.data.amount ∧
      projectedBalance e.data row.account.balance < row.account.balance) := by
  obtain ⟨-, -, -, h4, -⟩ :=
    handle_apply_spec f now s e row htype hfresh hrow hlive hget hupd
  rw [hpub] at h4
  simp only [if_false, Bool.false_eq_true] at h4
  refine ⟨h4, fun hty hpos => ⟨hpos, ?_⟩⟩
  simp only [projectedBalance, hty, if_false]
  linarith

/-- Witness for C10: for the 500 withdrawal the published event has
change 500 (the raw amount, positive) and new balance 100 - 500. -/
theorem balanceUpdated_change_is_raw_amount_witness :
    (AccountCommandService.HandleTransactionEvent noFaults 7 exState
        exWithdrawal).2.published =
      exState.published ++ [{ accountNumber := exWithdrawal.data.accountNumber,
                              newBalance := projectedBalance exWithdrawal.data
                                exRow.account.balance,
                              change := exWithdrawal.data.amount }] ∧
    (0 : ℚ) < exWithdrawal.data.amount ∧
    projectedBalance exWithdrawal.data exRow.account.balance < exRow.account.balance :=
  ⟨(balanceUpdated_change_is_raw_amount noFaults 7 exState exWithdrawal exRow rfl
      (by simp [exState]) rfl rfl rfl rfl rfl).1,
   (balanceUpdated_change_is_raw_amount noFaults 7 exState exWithdrawal exRow rfl
      (by simp [exState]) rfl rfl rfl rfl rfl).2 (by decide) (by norm_num [exWithdrawal])⟩

/-- C7 counterexample: the claim says the balance is the only field of the
target account record the projector mutates.  On the concrete deposit the
stored row comes back with `updatedAt = 7` (the database clock passed to the
balance UPDATE, whose SET clause also writes `updated_at = NOW()`), which
differs from the row predicted by the claim, where every field but the
balance keeps its old value (`updatedAt = 0`). -/
theorem handleTransactionEvent_frame_counterexample :
    (AccountCommandService.HandleTransactionEvent noFaults 7 exState
        exDeposit).2.accounts.lookup "01000001" =
      some { account := { exAccount with balance := 150, updatedAt := 7 },
             deletedAt := none } ∧
    ({ exAccount with balance := 150, updatedAt := 7 } : Account) ≠
      ({ exAccount with balance := 150 } : Account) := by
  constructor
  · have h := handle_apply_spec noFaults 7 exState exDeposit exRow rfl
      (by simp [exState]) rfl rfl rfl rfl
    have hk : exDeposit.data.accountNumber = "01000001" := rfl
    rw [hk] at h
    rw [h.2.1, lookup_setKey_self]
    have hbal : projectedBalance exDeposit.data 100 = 150 := by
      norm_num [projectedBalance, exDeposit]
    simp [projectedRow, exRow, exAccount, hbal]
  · intro h
    have := congrArg Account.updatedAt h
    simp [exAccount] at this

/-- C7 (amended): when the projector applies a transaction.created event, the
balance and the `updated_at` timestamp (set to the store's clock by the
UPDATE statement) are the only fields of the target account record it
mutates, and every other account record in the durable store is left
unchanged. -/
theorem handleTransactionEvent_frame (f : Faults) (now : Nat) (s : ProjectorState)
    (e : Event) (row : AccountRow)
    (htype : e.type = TransactionCreated)
    (hfresh : e.data.transactionID ∉ s.processed)
    (hrow : s.accounts.lookup e.data.accountNumber = some row)
    (hlive : row.deletedAt = none)
    (hget : f.getAccountFails = false)
    (hupd : f.updateBalanceFails = false) :
    (AccountCommandService.HandleTransactionEvent f now s e).2.accounts.lookup
        e.data.accountNumber =
      some { row with account := { row.account with
        balance := projectedBalance e.data row.account.balance, updatedAt := now } } ∧
    ∀ k, k ≠ e.data.accountNumber →
      (AccountCommandService.HandleTransactionEvent f now s e).2.accounts.lookup k =
        s.accounts.lookup k := by
  obtain ⟨-, h2, -, -, -⟩ :=
    handle_apply_spec f now s e row htype hfresh hrow hlive hget hupd
  constructor
  · rw [h2]
    exact lookup_setKey_self _ _ _
  · intro k hk
    rw [h2]
    exact lookup_setKey_ne _ _ _ _ hk

/-- Witness for the amended C7: the deposit rewrites the target row's balance
and updatedAt only, and a different key is untouched. -/
theorem handleTransactionEvent_frame_witness :
    (AccountCommandService.HandleTransactionEvent noFaults 7 exState
        exDeposit).2.accounts.lookup exDeposit.data.accountNumber =
      some { exRow with account := { exRow.account with
        balance := projectedBalance exDeposit.data exRow.account.balance,
        updatedAt := 7 } } ∧
    (AccountCommandService.HandleTransactionEvent noFaults 7 exState
        exDeposit).2.accounts.lookup "02000002" = exState.accounts.lookup "02000002" :=
  ⟨(handleTransactionEvent_frame noFaults 7 exState exDeposit exRow rfl
      (by simp [exState]) rfl rfl rfl rfl).1,
   (handleTransactionEvent_frame noFaults 7 exState exDeposit exRow rfl
      (by simp [exState]) rfl rfl rfl rfl).2 "02000002" (by decide)⟩

/-- C3: the idempotency marker is written only after the balance write
succeeded.  First conjunct: an erroring invocation (account load failed,
not-found included, or balance write failed) leaves the whole state -- durable
store and marker set included -- unchanged.  Second conjunct: if an
invocation created the marker, it returned success and the durable store now
holds the projected row, so the balance write preceded the marker. -/
theorem handleTransactionEvent_marker_after_apply (f : Faults) (now : Nat)
    (s : ProjectorState) (e : Event) :
    (∀ msg, (AccountCommandService.HandleTransactionEvent f now s e).1 = .error msg →
      (AccountCommandService.HandleTransactionEvent f now s e).2 = s) ∧
    (e.data.transactionID ∉ s.processed →
      e.data.transactionID ∈
        (AccountCommandService.HandleTransactionEvent f now s e).2.processed →
      (AccountCommandService.HandleTransactionEvent f now s e).1 = .ok () ∧
      ∃ row, s.accounts.lookup e.data.accountNumber = some row ∧ row.deletedAt = none ∧
        (AccountCommandService.HandleTransactionEvent f now s e).2.accounts.lookup
            e.data.accountNumber = some (projectedRow e.data now row)) ∧
    (∀ msg, e.type = TransactionCreated → e.data.transactionID ∉ s.processed →
      AccountWriteRepository.GetByAccountNumber f s e.data.accountNumber = .error msg →
      (AccountCommandService.HandleTransactionEvent f now s e).1 =
        .error ("failed to get account for balance update: " ++ msg)) ∧
    (∀ account msg, e.type = TransactionCreated → e.data.transactionID ∉ s.processed →
      AccountWriteRepository.GetByAccountNumber f s e.data.accountNumber = .ok account →
      AccountWriteRepository.UpdateBalance f now s e.data.accountNumber
        (if e.data.type = "deposit" then account.balance + e.data.amount
         else account.balance - e.data.amount) = .error msg →
      (AccountCommandService.HandleTransactionEvent f now s e).1 =
        .error ("failed to update balance: " ++ msg)) := by
  refine ⟨fun msg h => handle_error_frame f now s e msg h, fun hfresh hmarked => ?_,
    fun msg hty hfresh hGet => ?_, fun account msg hty hfresh hGet hUpd => ?_⟩
  · obtain ⟨hty, hget, hupd, hmark, row, hlk, hdel⟩ :=
      handle_mark_inversion f now s e hfresh hmarked
    obtain ⟨h1, h2, -, -, -⟩ :=
      handle_apply_spec f now s e row hty hfresh hlk hdel hget hupd
    exact ⟨h1, row, hlk, hdel, by rw [h2]; exact lookup_setKey_self _ _ _⟩
  · rw [AccountCommandService.HandleTransactionEvent]
    simp [hty, AccountReadRepository.IsTransactionProcessed, hfresh, hGet]
  · rw [AccountCommandService.HandleTransactionEvent]
    simp [hty, AccountReadRepository.IsTransactionProcessed, hfresh, hGet, hUpd]

/-- Witness for C3: a failing balance write and a failing account load each
leave the state untouched, and the clean run that created the marker
returned success. -/
theorem handleTransactionEvent_marker_after_apply_witness :
    (AccountCommandService.HandleTransactionEvent
        { noFaults with updateBalanceFails := true } 7 exState exDeposit).2 = exState ∧
    (AccountCommandService.HandleTransactionEvent
        { noFaults with getAccountFails := true } 7 exState exDeposit).2 = exState ∧
    (AccountCommandService.HandleTransactionEvent noFaults 7 exState exDeposit).1 =
      .ok () ∧
    (AccountCommandService.HandleTransactionEvent
        { noFaults with getAccountFails := true } 7 exState exDeposit).1 =
      .error ("failed to get account for balance update: " ++ "failed to get account") ∧
    (AccountCommandService.HandleTransactionEvent
        { noFaults with updateBalanceFails := true } 7 exState exDeposit).1 =
      .error ("failed to update balance: " ++ "failed to update balance") :=
  ⟨(handleTransactionEvent_marker_after_apply { noFaults with updateBalanceFails := true }
      7 exState exDeposit).1 "failed to update balance: failed to update balance" rfl,
   (handleTransactionEvent_marker_after_apply { noFaults with getAccountFails := true }
      7 exState exDeposit).1 "failed to get account for balance update: failed to get account" rfl,
   ((handleTransactionEvent_marker_after_apply noFaults 7 exState exDeposit).2.1
      (by simp [exState]) (by decide)).1,
   (handleTransactionEvent_marker_after_apply { noFaults with getAccountFails := true }
      7 exState exDeposit).2.2.1 "failed to get account" rfl (by simp [exState]) rfl,
   (handleTransactionEvent_marker_after_apply { noFaults with updateBalanceFails := true }
      7 exState exDeposit).2.2.2 exAccount "failed to update balance" rfl (by simp [exState])
      rfl rfl⟩

/-- C1: once a transaction.created event has been applied successfully and
its idempotency marker is present, re-invoking HandleTransactionEvent on the
same event returns success and changes nothing -- the whole state, the
account balance included, is exactly the state after the first invocation,
in which the delta was applied exactly once to the original balance. -/
theorem handleTransactionEvent_idempotent (f1 f2 : Faults) (now1 now2 : Nat)
    (s : ProjectorState) (e : Event)
    (htype : e.type = TransactionCreated)
    (hfresh : e.data.transactionID ∉ s.processed)
    (hok : (AccountCommandService.HandleTransactionEvent f1 now1 s e).1 = .ok ())
    (hmarked : e.data.transactionID ∈
      (AccountCommandService.HandleTransactionEvent f1 now1 s e).2.processed)
    (hex2 : f2.existsCheckFails = false) :
    AccountCommandService.HandleTransactionEvent f2 now2
        (AccountCommandService.HandleTransactionEvent f1 now1 s e).2 e =
      (.ok (), (AccountCommandService.HandleTransactionEvent f1 now1 s e).2) ∧
    ∃ row, s.accounts.lookup e.data.accountNumber = some row ∧
      (AccountCommandService.HandleTransactionEvent f1 now1 s e).2.accounts.lookup
          e.data.accountNumber = some (projectedRow e.data now1 row) := by
  obtain ⟨-, hget, hupd, hmark, row, hlk, hdel⟩ :=
    handle_mark_inversion f1 now1 s e hfresh hmarked
  obtain ⟨-, h2, h3, -, -⟩ :=
    handle_apply_spec f1 now1 s e row htype hfresh hlk hdel hget hupd
  constructor
  · have hproc2 : AccountReadRepository.IsTransactionProcessed f2
        (AccountCommandService.HandleTransactionEvent f1 now1 s e).2
        e.data.transactionID = true := by
      simp [AccountReadRepository.IsTransactionProcessed, hex2, h3, hmark]
    exact handle_skip f2 now2 _ e htype hproc2
  · exact ⟨row, hlk, by rw [h2]; exact lookup_setKey_self _ _ _⟩

/-- Witness for C1: deliver the deposit twice from a fresh state; the second
delivery returns success and leaves the first delivery's state untouched,
and the balance was changed by the delta once. -/
theorem handleTransactionEvent_idempotent_witness :
    AccountCommandService.HandleTransactionEvent noFaults 9
        (AccountCommandService.HandleTransactionEvent noFaults 7 exState exDeposit).2
        exDeposit =
      (.ok (), (AccountCommandService.HandleTransactionEvent noFaults 7 exState
        exDeposit).2) ∧
    ∃ row, exState.accounts.lookup exDeposit.data.accountNumber = some row ∧
      (AccountCommandService.HandleTransactionEvent noFaults 7 exState
          exDeposit).2.accounts.lookup exDeposit.data.accountNumber =
        some (projectedRow exDeposit.data 7 row) :=
  handleTransactionEvent_idempotent noFaults noFaults 7 9 exState exDeposit rfl
    (by simp [exState]) rfl (by decide) rfl

/-- C4: in one iteration of the consumer's read loop, the entries the
consumer acknowledges are exactly the entries of the batch on which
processMessage (deserialisation plus the registered handler) succeeded, in
batch order: an entry whose handler errored is skipped without stopping the
loop, so every later entry is still processed and acknowledged on success. -/
theorem readMessages_ack_iff_success (handler : Event → Except String Unit)
    (msgs : List XMessage) :
    Subscriber.readMessagesAcks handler msgs =
      (msgs.filter (fun m => Except.isOkB (Subscriber.processMessage handler m))).map
        XMessage.id := by
  induction msgs with
  | nil => rfl
  | cons m rest ih =>
    cases h : Subscriber.processMessage handler m <;>
      simp [Subscriber.readMessagesAcks, h, Except.isOkB, ih]

/-- C5: creating the consumer group when it already exists yields BUSYGROUP,
which Start treats as success, handing the read loop the group table
unchanged (no cursor reset); any other group-creation error makes Start
return it, wrapped, without reaching the read loop. -/
theorem subscriberStart_group_idempotent (g : StreamGroups)
    (stream group cursor : String) :
    (g.groups.lookup (stream, group) = some cursor →
      Subscriber.Start none g stream group = .ok g) ∧
    (∀ e, e ≠ busygroupMsg →
      Subscriber.Start (some e) g stream group =
        .error ("failed to create consumer group: " ++ e)) := by
  constructor
  · intro h
    simp [Subscriber.Start, Redis.XGroupCreateMkStream, h]
  · intro e he
    simp [Subscriber.Start, Redis.XGroupCreateMkStream, he]

/-- Witness for C5: with the group already present (cursor "0"), Start
succeeds with the table unchanged; a connection error is returned wrapped. -/
theorem subscriberStart_group_idempotent_witness :
    Subscriber.Start none
        { groups := [(("transaction.events", "account-service"), "0")] }
        "transaction.events" "account-service" =
      .ok { groups := [(("transaction.events", "account-service"), "0")] } ∧
    Subscriber.Start (some "connection refused")
        { groups := [(("transaction.events", "account-service"), "0")] }
        "transaction.events" "account-service" =
      .error ("failed to create consumer group: " ++ "connection refused") :=
  ⟨(subscriberStart_group_idempotent
      { groups := [(("transaction.events", "account-service"), "0")] }
      "transaction.events" "account-service" "0").1 rfl,
   (subscriberStart_group_idempotent
      { groups := [(("transaction.events", "account-service"), "0")] }
      "transaction.events" "account-service" "0").2 "connection refused" (by decide)⟩

/-- C6: reading an existing, non-deleted account through the read repository
with no cache entry under its key returns the view built from the durable
record, stores exactly that view's cache entry under the key with TTL 0 (no
expiry), and a subsequent read of the same key hits the cache and returns
the same view with the state unchanged. -/
theorem getByAccountNumber_cold_start (f f2 : Faults) (s : ProjectorState)
    (accountNumber : String) (row : AccountRow)
    (hkey : row.account.accountNumber = accountNumber)
    (hmiss : s.cache.lookup (accountViewKeyPrefix ++ accountNumber) = none)
    (hrow : s.accounts.lookup accountNumber = some row)
    (hlive : row.deletedAt = none)
    (hdb : f.dbReadFails = false)
    (hset : f.cacheSetFails = false)
    (hget2 : f2.cacheGetFails = false) :
    (AccountReadRepository.GetByAccountNumber f s accountNumber).1 =
      .ok (accountToView row.account) ∧
    (AccountReadRepository.GetByAccountNumber f s accountNumber).2.cache.lookup
        (accountViewKeyPrefix ++ accountNumber) =
      some (viewToCacheEntry (accountToView row.account), 0) ∧
    AccountReadRepository.GetByAccountNumber f2
        (AccountReadRepository.GetByAccountNumber f s accountNumber).2 accountNumber =
      (.ok (accountToView row.account),
       (AccountReadRepository.GetByAccountNumber f s accountNumber).2) := by
  have hGet1 : ViewCache.Get f s (accountViewKeyPrefix ++ accountNumber) = none := by
    simp [ViewCache.Get, hmiss]
  have hfirst : AccountReadRepository.GetByAccountNumber f s accountNumber =
      (.ok (accountToView row.account),
       AccountReadRepository.CacheAccountView f s (accountToView row.account)) := by
    rw [AccountReadRepository.GetByAccountNumber]
    simp [hGet1, hdb, hrow, hlive]
  have hkey' : (accountToView row.account).accountNumber = accountNumber := by
    simp [accountToView, hkey]
  have hcache : (AccountReadRepository.CacheAccountView f s (accountToView row.account)).cache =
      setKey s.cache (accountViewKeyPrefix ++ accountNumber)
        (viewToCacheEntry (accountToView row.account), 0) := by
    rw [AccountReadRepository.CacheAccountView, ViewCache.Set]
    simp [hset, hkey']
  refine ⟨by rw [hfirst], ?_, ?_⟩
  · rw [hfirst]
    show (AccountReadRepository.CacheAccountView f s (accountToView row.account)).cache.lookup
        (accountViewKeyPrefix ++ accountNumber) = _
    rw [hcache, lookup_setKey_self]
  · rw [hfirst]
    have hGet2 : ViewCache.Get f2
        (AccountReadRepository.CacheAccountView f s (accountToView row.account))
        (accountViewKeyPrefix ++ accountNumber) =
        some (viewToCacheEntry (accountToView row.account)) := by
      simp [ViewCache.Get, hget2, hcache, lookup_setKey_self]
    rw [AccountReadRepository.GetByAccountNumber]
    simp [hGet2, cacheEntry_view_roundtrip]

/-- Witness for C6: with an empty cache, reading the fixture account returns
its view, warms the cache with that view at TTL 0, and the second read hits. -/
theorem getByAccountNumber_cold_start_witness :
    (AccountReadRepository.GetByAccountNumber noFaults exState "01000001").1 =
      .ok (accountToView exRow.account) ∧
    (AccountReadRepository.GetByAccountNumber noFaults exState "01000001").2.cache.lookup
        (accountViewKeyPrefix ++ "01000001") =
      some (viewToCacheEntry (accountToView exRow.account), 0) ∧
    AccountReadRepository.GetByAccountNumber noFaults
        (AccountReadRepository.GetByAccountNumber noFaults exState "01000001").2 "01000001" =
      (.ok (accountToView exRow.account),
       (AccountReadRepository.GetByAccountNumber noFaults exState "01000001").2) :=
  getByAccountNumber_cold_start noFaults noFaults exState "01000001" exRow rfl rfl rfl
    rfl rfl rfl rfl

end Eagle
